import Mathlib

/-!
Verification of the ModelMint client (`src/App.jsx`, `src/LandingPage.jsx`,
`src/ModelMint3DGenerator.jsx`).

The interactive logic of `ModelMint3DGenerator` is embedded as an explicit
state machine: the component's `useState` hooks become fields of a `Model`
record, the event handlers (`sendMessage`, the Clear button, `openPreview`,
the modal close handlers) and the asynchronous continuations (`fetch`
resolution, the 250 ms `setTimeout` callback, the loader script finishing)
become a `step` function over `Event`s.  The route table of `App.jsx` is
embedded as `resolveRoute`.
-/

namespace ModelMint

/-- Role of a chat entry: the `role` field of the message objects built in
`ModelMint3DGenerator.jsx` (`'user' | 'bot'`). -/
inductive Role where
  | user
  | bot
deriving DecidableEq, Repr

/-- A chat entry as built by `sendMessage`:
`{ role, text, image?, stlUrl?, ts }`.  Absent optional fields
(`image`, `stlUrl`) are `none`. -/
structure ChatMessage where
  role : Role
  text : String
  image : Option String := none
  stlUrl : Option String := none
  ts : Nat
deriving DecidableEq, Repr

/-- The parsed JSON body of a successful `/chat` response:
`{ text?: string, image?: string, stlUrl?: string }`, where each of
`data.text`, `data.image`, `data.stlUrl` may be absent (`undefined`). -/
structure ReplyJson where
  text : Option String := none
  image : Option String := none
  stlUrl : Option String := none
deriving DecidableEq, Repr

/-- How the `fetch("/chat", …)` call inside `sendMessage` resolves:

* `ok body`: `res.ok` held and `res.json()` parsed to `body`;
* `httpError status bodyText`: `!res.ok`; the code reads the body text and
  throws an error with message `Server error: STATUS - BODY`;
* `thrown msg`: `fetch` / `res.text()` / `res.json()` rejected with an error
  whose `message` is `msg` (network failure, malformed JSON body, …). -/
inductive FetchResult where
  | ok (body : ReplyJson)
  | httpError (status : Nat) (bodyText : String)
  | thrown (msg : String)
deriving DecidableEq, Repr

/-- The bot message appended when the request resolves.  The success branch
builds `{ role: 'bot', text: data.text || "", image: data.image,
stlUrl: data.stlUrl, ts }` (a missing or empty `text` yields `""`); both
failure branches are caught and build
`{ role: 'bot', text: "Error: " + err.message, ts }`, where for a non-ok
status the thrown message is `Server error: STATUS - BODY`. -/
def botMsgOfResult (r : FetchResult) (now : Nat) : ChatMessage :=
  match r with
  | .ok body =>
      { role := .bot, text := body.text.getD "", image := body.image,
        stlUrl := body.stlUrl, ts := now }
  | .httpError status bodyText =>
      { role := .bot,
        text := "Error: Server error: " ++ toString status ++ " - " ++ bodyText,
        ts := now }
  | .thrown msg =>
      { role := .bot, text := "Error: " ++ msg, ts := now }

/-- The JavaScript `prompt.trim()` used by `sendMessage`, embedded as a
computation on the character list: drop leading and trailing whitespace. -/
def jsTrim (s : String) : String :=
  ⟨((s.data.dropWhile Char.isWhitespace).reverse.dropWhile
      Char.isWhitespace).reverse⟩

/-- The component's React state (the `useState` hooks of
`ModelMint3DGenerator`) together with the pieces of the browser environment
the specification observes:

* `prompt`, `messages`, `loading`, `typing`, `previewUrl`, `showPreview`
  are the six `useState` variables (the spec's `pendingInput`,
  message store, `isRequestInFlight`, `isTypingIndicatorVisible`,
  `activePreviewUrl`, `isPreviewOpen`);
* `timers` holds the deadlines of pending
  `setTimeout(() => setTyping(false), 250)` callbacks;
* `viewerRegistered` is whether `customElements.get("model-viewer")` is
  defined; `scriptsInjected` counts the loader `<script>` tags the
  `useEffect` has appended to `document.head`;
* `requestsSent` records the bodies of the `POST /chat` requests actually
  dispatched. -/
structure Model where
  prompt : String := ""
  messages : List ChatMessage := []
  loading : Bool := false
  typing : Bool := false
  previewUrl : Option String := none
  showPreview : Bool := false
  timers : List Nat := []
  viewerRegistered : Bool := false
  scriptsInjected : Nat := 0
  requestsSent : List String := []
deriving DecidableEq, Repr

/-- The events the component reacts to: typing in the textarea, clicking
Generate (or pressing Enter), the in-flight `fetch` resolving, a scheduled
typing-indicator timeout firing, clicking Clear, clicking Preview 3D on a
message carrying `url`, closing the modal (Close button or backdrop click —
both call `setShowPreview(false)`), and the loader script finishing and
registering the `model-viewer` element. -/
inductive Event where
  | setInput (text : String)
  | submit (now : Nat)
  | resolve (r : FetchResult) (now : Nat)
  | timerFire (deadline : Nat)
  | clearMessages
  | openPreviewOn (url : String)
  | closePreview
  | scriptLoaded
deriving DecidableEq, Repr

/-- Body of the `useEffect(…, [showPreview])` at the top of the component:
it runs when `showPreview` changes; it returns immediately when the modal is
closed, or when `customElements.get("model-viewer")` already exists;
otherwise it appends a model-viewer loader `<script>` to `document.head`.
There is no record of an already-initiated load: the only guard is the
custom-element registry. -/
def viewerEffect (s : Model) : Model :=
  if s.showPreview = false then s
  else if s.viewerRegistered = true then s
  else { s with scriptsInjected := s.scriptsInjected + 1 }

/-- One reaction of the component.

* `setInput`: the textarea `onChange` handler, `setPrompt(value)`.
* `submit`: `sendMessage()` up to its `await`: it returns unchanged when the
  trimmed prompt is empty or `loading` is set; otherwise it appends the user
  message, clears the prompt, sets `loading` and `typing`, and dispatches
  the request.
* `resolve`: the rest of `sendMessage` once the `fetch` settles (only a
  pending request can settle, i.e. `loading` is set): the bot message for
  the outcome is appended, `loading` is cleared, and
  `setTimeout(() => setTyping(false), 250)` schedules a deadline.
* `timerFire`: a scheduled timeout fires, `setTyping(false)`.
* `clearMessages`: the Clear button, `setMessages([])`.
* `openPreviewOn`: `openPreview(url)` — `setPreviewUrl(url)` then
  `setShowPreview(true)`; the `useEffect` re-runs only if `showPreview`
  actually changed.
* `closePreview`: `setShowPreview(false)`; the re-run effect returns
  immediately since the modal is closed, so nothing else changes.
* `scriptLoaded`: an injected loader script finishes and registers the
  `model-viewer` custom element. -/
def step (s : Model) (e : Event) : Model :=
  match e with
  | .setInput text => { s with prompt := text }
  | .submit now =>
      let trimmed := jsTrim s.prompt
      if trimmed = "" ∨ s.loading = true then s
      else
        { s with
          messages := s.messages ++ [{ role := .user, text := trimmed, ts := now }],
          prompt := "",
          loading := true,
          typing := true,
          requestsSent := s.requestsSent ++ [trimmed] }
  | .resolve r now =>
      if s.loading = true then
        { s with
          messages := s.messages ++ [botMsgOfResult r now],
          loading := false,
          timers := s.timers ++ [now + 250] }
      else s
  | .timerFire deadline =>
      if deadline ∈ s.timers then
        { s with typing := false, timers := s.timers.erase deadline }
      else s
  | .clearMessages => { s with messages := [] }
  | .openPreviewOn url =>
      let s2 := { s with previewUrl := some url, showPreview := true }
      if s.showPreview = true then s2 else viewerEffect s2
  | .closePreview => { s with showPreview := false }
  | .scriptLoaded => { s with viewerRegistered := true }

/-- Run a sequence of events from a state. -/
def runTrace (s : Model) (evts : List Event) : Model :=
  evts.foldl step s

/-- The model-file reference the preview surface actually shows: the modal is
rendered only under `showPreview && previewUrl` and displays `previewUrl`
(as the `model-viewer` source or the fallback link).  When the modal is
closed no target is active. -/
def displayedPreview (s : Model) : Option String :=
  if s.showPreview = true then s.previewUrl else none

/-- The two destination screens of the router in `App.jsx`. -/
inductive Page where
  | landing
  | generator
deriving DecidableEq, Repr

/-- The route table of `App.jsx`: `/` renders the landing page,
`/generator` renders the chat screen, `/app` is
`<Navigate to="/generator" replace />`, and the wildcard route is
`<Navigate to="/" replace />`. -/
def resolveRoute (path : String) : Page :=
  if path = "/" then .landing
  else if path = "/generator" then .generator
  else if path = "/app" then .generator
  else .landing

/-- A concrete state with a request in flight and one prior chat entry,
used to exercise the Clear-while-pending behavior. -/
def pendingWithHistory : Model :=
  { loading := true, messages := [{ role := .user, text := "q", ts := 0 }] }

/-! ## Theorems -/

/-- Every event of a state whose `model-viewer` capability is already
registered keeps the capability registered and injects no loader script. -/
theorem step_keeps_registered_and_scripts (s : Model) (e : Event)
    (h : s.viewerRegistered = true) :
    (step s e).viewerRegistered = true ∧
    (step s e).scriptsInjected = s.scriptsInjected := by
  cases e <;> simp [step, viewerEffect, h] <;> split <;> simp [h]

/-- C1: from any state with no request in flight and a prompt whose trimmed
form is non-empty, submitting appends exactly one user message, and — for
every possible outcome of the request — its resolution appends exactly one
bot message right after it, so the attempt always ends with a terminal bot
entry. -/
theorem submit_resolve_appends_user_then_bot
    (s : Model) (t0 t1 : Nat) (r : FetchResult)
    (hload : s.loading = false) (hne : jsTrim s.prompt ≠ "") :
    ∃ u b,
      (step s (.submit t0)).messages = s.messages ++ [u] ∧
      (runTrace s [.submit t0, .resolve r t1]).messages = s.messages ++ [u, b] ∧
      u.role = .user ∧ b.role = .bot := by
  refine ⟨{ role := .user, text := jsTrim s.prompt, ts := t0 },
          botMsgOfResult r t1, ?_, ?_, rfl, ?_⟩
  · simp [step, hload, hne]
  · simp [runTrace, step, hload, hne]
  · cases r <;> rfl

/-- Witness for C1: concrete prompt `"hi"`, request failing with `"x"`. -/
theorem submit_resolve_appends_user_then_bot_w :
    ∃ u b,
      (step { prompt := "hi" } (.submit 0)).messages
        = ({ prompt := "hi" } : Model).messages ++ [u] ∧
      (runTrace { prompt := "hi" } [.submit 0, .resolve (.thrown "x") 1]).messages
        = ({ prompt := "hi" } : Model).messages ++ [u, b] ∧
      u.role = .user ∧ b.role = .bot :=
  submit_resolve_appends_user_then_bot { prompt := "hi" } 0 1 (.thrown "x")
    rfl (by decide)

/-- C2: submitting while a request is in flight, or with a prompt that trims
to empty, is a complete no-op: the whole state — messages, dispatched
requests, every field — is unchanged. -/
theorem blocked_submit_is_noop (s : Model) (t : Nat)
    (h : jsTrim s.prompt = "" ∨ s.loading = true) :
    step s (.submit t) = s := by
  simp [step, h]

/-- Witness for C2 at a whitespace-only prompt. -/
theorem blocked_submit_is_noop_w :
    step { prompt := "  " } (.submit 0) = ({ prompt := "  " } : Model) :=
  blocked_submit_is_noop { prompt := "  " } 0 (Or.inl (by decide))

/-- C3 counterexample: starting with the capability unregistered, opening
the preview injects a loader script (a load is initiated); closing and
reopening before the script has registered the element injects a second
loader script, so the session does not load the capability at most once. -/
theorem duplicate_load_before_registration :
    ¬ ((runTrace {} [.openPreviewOn "u", .closePreview, .openPreviewOn "u"]
        ).scriptsInjected ≤ 1) := by
  decide

/-- C3 (amended): the loader guard is the custom-element registry, not a
record of initiated loads — so once the `model-viewer` element is
registered, no sequence of events (in particular no further preview open)
injects another loader script; before registration completes, each preview
open from a closed state injects one more script. -/
theorem registered_no_duplicate_loads (s : Model) (evts : List Event)
    (h : s.viewerRegistered = true) :
    (runTrace s evts).scriptsInjected = s.scriptsInjected ∧
    (runTrace s evts).viewerRegistered = true := by
  induction evts generalizing s with
  | nil => exact ⟨rfl, h⟩
  | cons e rest ih =>
      have hs := step_keeps_registered_and_scripts s e h
      have hr := ih (step s e) hs.1
      exact ⟨hr.1.trans hs.2, hr.2⟩

/-- Witness for amended C3: capability registered, two opens and a close
inject nothing. -/
theorem registered_no_duplicate_loads_w :
    (runTrace { viewerRegistered := true }
        [.openPreviewOn "u", .closePreview, .openPreviewOn "v"]).scriptsInjected
      = ({ viewerRegistered := true } : Model).scriptsInjected ∧
    (runTrace { viewerRegistered := true }
        [.openPreviewOn "u", .closePreview, .openPreviewOn "v"]).viewerRegistered
      = true :=
  registered_no_duplicate_loads { viewerRegistered := true }
    [.openPreviewOn "u", .closePreview, .openPreviewOn "v"] rfl

/-- C4: closing the preview surface leaves no active (displayed) target,
and reopening it on a reference shows exactly that reference — never a
stale one. -/
theorem close_discards_reopen_shows_new (s : Model) (url : String) :
    displayedPreview (step s .closePreview) = none ∧
    displayedPreview (step (step s .closePreview) (.openPreviewOn url))
      = some url := by
  constructor
  · simp [step, displayedPreview]
  · cases hv : s.viewerRegistered <;>
      simp [step, displayedPreview, viewerEffect, hv]

/-- C5: when the call resolves with status 500 and body `"boom"`, exactly
one bot message is appended after the user message; its text contains both
`"500"` and `"boom"`, and it carries no image and no model-file field. -/
theorem server_error_message_contents (s : Model) (t0 t1 : Nat)
    (hload : s.loading = false) (hne : jsTrim s.prompt ≠ "") :
    ∃ m, (runTrace s [.submit t0, .resolve (.httpError 500 "boom") t1]).messages
        = (step s (.submit t0)).messages ++ [m] ∧
      m.role = .bot ∧
      (∃ x y, m.text = x ++ "500" ++ y) ∧
      (∃ x y, m.text = x ++ "boom" ++ y) ∧
      m.image = none ∧ m.stlUrl = none := by
  refine ⟨botMsgOfResult (.httpError 500 "boom") t1, ?_, rfl,
    ⟨"Error: Server error: ", " - boom", ?_⟩,
    ⟨"Error: Server error: 500 - ", "", ?_⟩, rfl, rfl⟩
  · simp [runTrace, step, hload, hne]
  · simp only [botMsgOfResult]
    decide
  · simp only [botMsgOfResult]
    decide

/-- Witness for C5: concrete prompt `"hi"`. -/
theorem server_error_message_contents_w :
    ∃ m, (runTrace { prompt := "hi" }
          [.submit 0, .resolve (.httpError 500 "boom") 1]).messages
        = (step { prompt := "hi" } (.submit 0)).messages ++ [m] ∧
      m.role = .bot ∧
      (∃ x y, m.text = x ++ "500" ++ y) ∧
      (∃ x y, m.text = x ++ "boom" ++ y) ∧
      m.image = none ∧ m.stlUrl = none :=
  server_error_message_contents { prompt := "hi" } 0 1 rfl (by decide)

/-- C6: a successful-status reply with missing fields is handled leniently:
a single bot message is appended (no error text is produced), a missing
`text` yields the empty text, and missing `image` / `stlUrl` yield absent
fields. -/
theorem lenient_reply_defaults (s : Model) (t0 t1 : Nat) (b : ReplyJson)
    (hload : s.loading = false) (hne : jsTrim s.prompt ≠ "") :
    ∃ m, (runTrace s [.submit t0, .resolve (.ok b) t1]).messages
        = (step s (.submit t0)).messages ++ [m] ∧
      m.role = .bot ∧
      (b.text = none → m.text = "") ∧
      (b.image = none → m.image = none) ∧
      (b.stlUrl = none → m.stlUrl = none) := by
  refine ⟨botMsgOfResult (.ok b) t1, ?_, rfl, ?_, ?_, ?_⟩
  · simp [runTrace, step, hload, hne]
  · intro h; simp [botMsgOfResult, h]
  · intro h; simp [botMsgOfResult, h]
  · intro h; simp [botMsgOfResult, h]

/-- Witness for C6: reply body with every field absent. -/
theorem lenient_reply_defaults_w :
    ∃ m, (runTrace { prompt := "hi" } [.submit 0, .resolve (.ok {}) 1]).messages
        = (step { prompt := "hi" } (.submit 0)).messages ++ [m] ∧
      m.role = .bot ∧
      (({} : ReplyJson).text = none → m.text = "") ∧
      (({} : ReplyJson).image = none → m.image = none) ∧
      (({} : ReplyJson).stlUrl = none → m.stlUrl = none) :=
  lenient_reply_defaults { prompt := "hi" } 0 1 {} rfl (by decide)

/-- C7: clearing empties the message list whatever it held, leaves the
in-flight flag set, and the pending request still resolves and appends its
bot message afterwards. -/
theorem clear_empties_pending_still_resolves (s : Model) (r : FetchResult)
    (t : Nat) (h : s.loading = true) :
    (step s .clearMessages).messages = [] ∧
    (step s .clearMessages).loading = true ∧
    ∃ m, (runTrace s [.clearMessages, .resolve r t]).messages = [m] ∧
      m.role = .bot := by
  refine ⟨rfl, h, botMsgOfResult r t, ?_, ?_⟩
  · simp [runTrace, step, h]
  · cases r <;> rfl

/-- Witness for C7: in-flight request, non-empty prior history. -/
theorem clear_empties_pending_still_resolves_w :
    (step pendingWithHistory .clearMessages).messages = [] ∧
    (step pendingWithHistory .clearMessages).loading = true ∧
    ∃ m, (runTrace pendingWithHistory
          [.clearMessages, .resolve (.thrown "x") 5]).messages = [m] ∧
      m.role = .bot :=
  clear_empties_pending_still_resolves pendingWithHistory (.thrown "x") 5 rfl

/-- C8 counterexample: submit at 0, resolve at 100 (a timer is set for 350),
submit again at 200 — inside the 250 ms grace period — and let the stale,
uncancelled timer fire at 350: the typing indicator is cleared while the
second request is still in flight, and when that request resolves at 1000
the indicator is already false, so it does not remain true for any grace
period after the in-flight flag becomes false. -/
theorem stale_typing_timer :
    ((runTrace { prompt := "a" }
        [.submit 0, .resolve (.ok {}) 100, .setInput "b", .submit 200,
         .timerFire 350]).loading = true ∧
     (runTrace { prompt := "a" }
        [.submit 0, .resolve (.ok {}) 100, .setInput "b", .submit 200,
         .timerFire 350]).typing = false) ∧
    ((runTrace { prompt := "a" }
        [.submit 0, .resolve (.ok {}) 100, .setInput "b", .submit 200,
         .timerFire 350, .resolve (.ok {}) 1000]).loading = false ∧
     (runTrace { prompt := "a" }
        [.submit 0, .resolve (.ok {}) 100, .setInput "b", .submit 200,
         .timerFire 350, .resolve (.ok {}) 1000]).typing = false) := by
  decide

/-- C8 (amended): for a submission with no second submission inside the
grace period, the in-flight flag is true from dispatch to resolution and
false afterwards; the typing indicator is still true at resolution, a
clearing timer is scheduled 250 ms after resolution, and when that timer
fires the indicator clears while the in-flight flag stays false.  The timer
is not cancelled by a new submission, so a submission started within the
grace period has its indicator cleared by the stale timer while its own
request is still in flight. -/
theorem inflight_and_typing_protocol (s : Model) (t0 t1 : Nat)
    (r : FetchResult) (hload : s.loading = false)
    (hne : jsTrim s.prompt ≠ "") :
    (step s (.submit t0)).loading = true ∧
    (step s (.submit t0)).typing = true ∧
    (runTrace s [.submit t0, .resolve r t1]).loading = false ∧
    (runTrace s [.submit t0, .resolve r t1]).typing = true ∧
    (t1 + 250) ∈ (runTrace s [.submit t0, .resolve r t1]).timers ∧
    (runTrace s [.submit t0, .resolve r t1, .timerFire (t1 + 250)]).typing
      = false ∧
    (runTrace s [.submit t0, .resolve r t1, .timerFire (t1 + 250)]).loading
      = false := by
  refine ⟨?_, ?_, ?_, ?_, ?_, ?_, ?_⟩ <;> simp [runTrace, step, hload, hne]

/-- Witness for amended C8: concrete prompt `"hi"`, success reply. -/
theorem inflight_and_typing_protocol_w :
    (step { prompt := "hi" } (.submit 0)).loading = true ∧
    (step { prompt := "hi" } (.submit 0)).typing = true ∧
    (runTrace { prompt := "hi" } [.submit 0, .resolve (.ok {}) 7]).loading
      = false ∧
    (runTrace { prompt := "hi" } [.submit 0, .resolve (.ok {}) 7]).typing
      = true ∧
    (7 + 250) ∈ (runTrace { prompt := "hi" }
        [.submit 0, .resolve (.ok {}) 7]).timers ∧
    (runTrace { prompt := "hi" }
        [.submit 0, .resolve (.ok {}) 7, .timerFire (7 + 250)]).typing
      = false ∧
    (runTrace { prompt := "hi" }
        [.submit 0, .resolve (.ok {}) 7, .timerFire (7 + 250)]).loading
      = false :=
  inflight_and_typing_protocol { prompt := "hi" } 0 7 (.ok {}) rfl (by decide)

/-- C9 counterexample: `/app` is neither the root path nor the generator
path, yet it does not redirect to root — it redirects to the generator. -/
theorem app_route_not_root :
    resolveRoute "/app" ≠ Page.landing ∧
    resolveRoute "/app" = Page.generator := by
  decide

/-- C9 (amended): the router serves the landing page at `/` and the chat
screen at `/generator`; the extra path `/app` redirects to the generator,
and every path other than these three redirects to root. -/
theorem route_table (path : String) :
    resolveRoute "/" = Page.landing ∧
    resolveRoute "/generator" = Page.generator ∧
    resolveRoute "/app" = Page.generator ∧
    (path ≠ "/" → path ≠ "/generator" → path ≠ "/app" →
      resolveRoute path = Page.landing) := by
  refine ⟨by decide, by decide, by decide, fun h1 h2 h3 => ?_⟩
  simp [resolveRoute, h1, h2, h3]

/-- Witness for amended C9 at an unknown path. -/
theorem route_table_w :
    resolveRoute "/somewhere" = Page.landing :=
  (route_table "/somewhere").2.2.2 (by decide) (by decide) (by decide)

/-- C10: clearing the conversation changes nothing but the message list:
the pending input, in-flight flag, typing indicator, preview target,
preview-open flag — and the rest of the observable state — are untouched. -/
theorem clear_modifies_only_messages (s : Model) :
    (step s .clearMessages).prompt = s.prompt ∧
    (step s .clearMessages).loading = s.loading ∧
    (step s .clearMessages).typing = s.typing ∧
    (step s .clearMessages).previewUrl = s.previewUrl ∧
    (step s .clearMessages).showPreview = s.showPreview ∧
    (step s .clearMessages).timers = s.timers ∧
    (step s .clearMessages).viewerRegistered = s.viewerRegistered ∧
    (step s .clearMessages).scriptsInjected = s.scriptsInjected ∧
    (step s .clearMessages).requestsSent = s.requestsSent :=
  ⟨rfl, rfl, rfl, rfl, rfl, rfl, rfl, rfl, rfl⟩

end ModelMint
